import Mathlib

/-!
Shallow embedding of the check implementations of the autosuspend repository
(files `src/autosuspend/checks/kodi.py`, `src/autosuspend/checks/systemd.py`,
`src/autosuspend/checks/wakeup.py`) and proofs about them.

External effects (HTTP fetches, D-Bus queries, subprocess execution, file
reads) are modelled as explicit observation values passed to the check
functions; the check bodies themselves are translated statement by statement
from the Python source.  Python exceptions that a check can raise or let
escape are modelled by an `Except PyExc` result.  Python `datetime` values
are modelled by a rational number of seconds since the Unix epoch together
with an awareness flag (`true` exactly for timezone-aware UTC datetimes,
which are the only aware datetimes these checks ever build).  Python `float`
parsing is modelled over ordinary decimal/exponent notation on the rationals
(the checks only ever feed timestamps and offsets through it); `inf`, `nan`
and underscore separators are outside the modelled input language, and
`datetime.fromtimestamp` range errors are not modelled.
-/

/-- Python exceptions relevant to the embedded checks.  The three members of
the repository error taxonomy carry their message; the built-in exceptions
are modelled without payload. -/
inductive PyExc where
  | keyError
  | typeError
  | valueError
  | indexError
  | attributeError
  | temporaryCheckError (msg : String)
  | severeCheckError (msg : String)
  | configurationError (msg : String)
  deriving DecidableEq, Repr

/-- Model of a Python `datetime`: seconds since the Unix epoch, plus an
awareness flag that is `true` exactly for timezone-aware UTC values. -/
structure PyDateTime where
  epochSeconds : Rat
  utcAware : Bool
  deriving DecidableEq, Repr

/-- Model of `datetime.fromtimestamp(x, timezone.utc)`: an aware UTC instant. -/
def fromtimestampUtc (x : Rat) : PyDateTime :=
  { epochSeconds := x, utcAware := true }

/-- Model of `datetime + timedelta`, the timedelta given in seconds.
Awareness of the left operand is preserved. -/
def dtAdd (d : PyDateTime) (seconds : Rat) : PyDateTime :=
  { epochSeconds := d.epochSeconds + seconds, utcAware := d.utcAware }

/-- Strict comparison of two (aware) datetimes, by instant. -/
def dtLt (a b : PyDateTime) : Bool :=
  a.epochSeconds < b.epochSeconds

/-- Model of Python `s.endswith(t)`, computed on the character lists. -/
def strEndsWith (s t : String) : Bool :=
  t.toList.isSuffixOf s.toList

/-- Model of Python `s.startswith(t)`, computed on the character lists. -/
def strStartsWith (s t : String) : Bool :=
  t.toList.isPrefixOf s.toList

/-- ASCII whitespace recognised by Python's `str.strip` (the checks only
ever strip ASCII content). -/
def isPySpace (c : Char) : Bool :=
  c = ' ' || c = '\t' || c = '\n' || c = '\r' || c = '\x0b' || c = '\x0c'

/-- Model of Python `str.strip()`: drop whitespace from both ends. -/
def pyStrip (s : String) : String :=
  String.mk (((s.toList.dropWhile isPySpace).reverse.dropWhile isPySpace).reverse)

/-- Helper for `pySplitlines`: accumulates the current line (reversed). -/
def pySplitlinesAux : List Char → List Char → List String
  | [], acc => if acc.isEmpty then [] else [String.mk acc.reverse]
  | '\r' :: '\n' :: rest, acc => String.mk acc.reverse :: pySplitlinesAux rest []
  | '\r' :: rest, acc => String.mk acc.reverse :: pySplitlinesAux rest []
  | '\n' :: rest, acc => String.mk acc.reverse :: pySplitlinesAux rest []
  | c :: rest, acc => pySplitlinesAux rest (c :: acc)

/-- Model of Python `str.splitlines()` over the line endings the checks can
meet (`\n`, `\r`, `\r\n`): no trailing empty line, and the empty string
yields the empty list. -/
def pySplitlines (s : String) : List String :=
  pySplitlinesAux s.toList []

/-- Decimal digit test. -/
def isDigitChar (c : Char) : Bool :=
  '0' ≤ c && c ≤ '9'

/-- Numeric value of a digit string (most significant first). -/
def digitsToNat (cs : List Char) : Nat :=
  cs.foldl (fun a c => 10 * a + (c.toNat - '0'.toNat)) 0

/-- Split an optional leading sign off a character list. -/
def splitSign : List Char → (Int × List Char)
  | '+' :: rest => (1, rest)
  | '-' :: rest => (-1, rest)
  | cs => (1, cs)

/-- Ten to an integer power, as a rational. -/
def ratPow10 (e : Int) : Rat :=
  if 0 ≤ e then ((10 : Rat) ^ e.toNat) else 1 / ((10 : Rat) ^ (-e).toNat)

/-- Parse the unsigned mantissa of a Python float literal: digits with an
optional decimal point (`12`, `12.`, `12.5`, `.5`).  Returns the value and
the unconsumed remainder. -/
def parseMantissa (cs : List Char) : Option (Rat × List Char) :=
  let intSplit := cs.span isDigitChar
  match intSplit.2 with
  | '.' :: rest2 =>
    let fracSplit := rest2.span isDigitChar
    if intSplit.1.isEmpty && fracSplit.1.isEmpty then none
    else
      some ((digitsToNat intSplit.1 : Rat) +
        (digitsToNat fracSplit.1 : Rat) / ((10 : Rat) ^ fracSplit.1.length),
        fracSplit.2)
  | _ =>
    if intSplit.1.isEmpty then none else some ((digitsToNat intSplit.1 : Rat), intSplit.2)

/-- Parse an optional exponent part (`e5`, `E-3`, or nothing). -/
def parseExpPart (cs : List Char) : Option (Int × List Char) :=
  match cs with
  | c :: rest =>
    if c = 'e' || c = 'E' then
      let signSplit := splitSign rest
      let digSplit := signSplit.2.span isDigitChar
      if digSplit.1.isEmpty then none
      else some (signSplit.1 * (digitsToNat digSplit.1 : Int), digSplit.2)
    else some (0, cs)
  | [] => some (0, [])

/-- Apply a `splitSign` result (`1` or `-1`) to a mantissa. -/
def applySign (sign : Int) (m : Rat) : Rat :=
  if sign < 0 then -m else m

/-- Scale a mantissa by a parsed exponent (identity for exponent zero). -/
def applyExp (m : Rat) (e : Int) : Rat :=
  if e = 0 then m else m * ratPow10 e

/-- Model of Python's `float(s)` on decimal/exponent notation: optional
whitespace, optional sign, mantissa, optional exponent, nothing else.
Returns `none` where Python raises `ValueError`. -/
def parseFloat (s : String) : Option Rat :=
  let cs := (pyStrip s).toList
  let signSplit := splitSign cs
  match parseMantissa signSplit.2 with
  | none => none
  | some (m, rest) =>
    match parseExpPart rest with
    | none => none
    | some (e, rest2) =>
      if rest2.isEmpty then some (applySign signSplit.1 (applyExp m e)) else none

/-- Binary step of Python's `min` on datetimes: keep the current value
unless the next item is strictly smaller. -/
def pyMin2 (a b : PyDateTime) : PyDateTime :=
  if dtLt b a then b else a

/-- Model of Python `min(xs)` on a list of (aware) datetimes: `none` stands
for the `ValueError` on an empty sequence. -/
def pyMinD : List PyDateTime → Option PyDateTime
  | [] => none
  | x :: xs => some (xs.foldl pyMin2 x)

/-!
JSON values, Python truthiness and subscription, for the Kodi check
(`src/autosuspend/checks/kodi.py`).
-/

/-- JSON values as decoded by `response.json()`.  Objects are association
lists; a decoded object has pairwise distinct keys. -/
inductive Json where
  | null
  | bool (b : Bool)
  | num (q : Rat)
  | str (s : String)
  | arr (elems : List Json)
  | obj (fields : List (String × Json))

/-- Python truthiness of a decoded JSON value (`None`, `False`, `0`, empty
string/list/dict are falsy). -/
def Json.truthy : Json → Bool
  | .null => false
  | .bool b => b
  | .num q => q != 0
  | .str s => s != ""
  | .arr elems => !elems.isEmpty
  | .obj fields => !fields.isEmpty

/-- Lookup in a decoded JSON object, as `dict.get`: `none` when the key is
absent. -/
def pyDictGet (fields : List (String × Json)) (key : String) : Option Json :=
  (fields.find? (fun p => p.1 == key)).map Prod.snd

/-- Model of Python subscription `j["result"]` on a decoded JSON value:
`KeyError` when an object lacks the key, `TypeError` when the value is not
an object (list/str/int/… subscripted with a string). -/
def pySubscript (j : Json) (key : String) : Except PyExc Json :=
  match j with
  | .obj fields =>
    match pyDictGet fields key with
    | some v => .ok v
    | none => .error .keyError
  | _ => .error .typeError

namespace Kodi

/-- Reply of `Kodi.check` in `suspend_while_paused` mode, for reference in
theorem statements. -/
def playingReason : String := "Kodi actively playing media"

/-- Reply of `Kodi.check` in default mode. -/
def activeReason : String := "Kodi currently playing"

/-- Message of the `TemporaryCheckError` raised by `_safe_request_result`. -/
def parseFailMsg : String := "Unable to get or parse Kodi state"

/-- Embedding of `Kodi._safe_request_result`: evaluate
`self.request().json()["result"]`, turning `KeyError`, `TypeError` and
`json.JSONDecodeError` into a `TemporaryCheckError`.  The observation
`body` is the fetched reply: `none` when the body is not JSON
(`JSONDecodeError`), `some j` for a decoded value `j`. -/
def safe_request_result (body : Option Json) : Except PyExc Json :=
  match body with
  | none => .error (.temporaryCheckError parseFailMsg)
  | some j =>
    match pySubscript j "result" with
    | .ok v => .ok v
    | .error _ => .error (.temporaryCheckError parseFailMsg)

/-- Embedding of `Kodi.check`.  In `suspend_while_paused` mode the source
evaluates `reply.get("Player.Playing")`: on a non-dict reply this raises an
(uncaught) `AttributeError`, and a missing key yields `None`, hence falsy. -/
def check (suspend_while_paused : Bool) (body : Option Json) :
    Except PyExc (Option String) := do
  let reply ← safe_request_result body
  if suspend_while_paused then
    match reply with
    | .obj fields =>
      pure (if (match pyDictGet fields "Player.Playing" with
                | some v => v.truthy
                | none => false) then some playingReason else none)
    | _ => .error .attributeError
  else
    pure (if reply.truthy then some activeReason else none)

end Kodi

/-!
Wakeup checks from `src/autosuspend/checks/wakeup.py`.
-/

/-- Outcome of `self._path.read_text()` as observed by `File.check`:
the file is absent (`FileNotFoundError`), an `OSError` other than
`FileNotFoundError` occurs, or the full text is read. -/
inductive FileRead where
  | fileNotFound
  | ioError
  | content (text : String)
  deriving DecidableEq, Repr

namespace File

/-- Message of the `TemporaryCheckError` raised by `File.check`. -/
def readFailMsg : String :=
  "Next wakeup time cannot be read despite a file being present"

/-- Embedding of `File.check`: read the first line
(`read_text().splitlines()[0]` — an `IndexError` escapes on empty content,
since only `FileNotFoundError`, `ValueError` and `IOError` are caught),
strip it, parse it as a float, and return the corresponding aware UTC
instant.  A missing file yields `none`; a read error or unparsable content
raises `TemporaryCheckError`.  The `timestamp` argument is accepted and
ignored, as in the source. -/
def check (timestamp : PyDateTime) (fr : FileRead) :
    Except PyExc (Option PyDateTime) :=
  match fr with
  | .fileNotFound => .ok none
  | .ioError => .error (.temporaryCheckError readFailMsg)
  | .content text =>
    match (pySplitlines text).head? with
    | none => .error .indexError
    | some first_line =>
      match parseFloat (pyStrip first_line) with
      | some x => .ok (some (fromtimestampUtc x))
      | none => .error (.temporaryCheckError readFailMsg)

end File

/-- Outcome of `subprocess.check_output(self._command, shell=True)` as
observed by `Command.check`: either the command exited non-zero
(`CalledProcessError` with the given return code) or it succeeded with the
given standard output. -/
inductive CommandRun where
  | calledProcessError (returncode : Int)
  | output (stdout : String)
  deriving DecidableEq, Repr

/-- Modelled from the spec: `raise_severe_if_command_not_found` lives in
`autosuspend/util/subprocess.py`, which is not under `src/`.  Per the spec
(§4.2, §4.1), a command whose binary is absent must be distinguished from an
ordinary failure and maps to `SevereCheckError`; the shell reports an absent
binary with exit status 127, so the model raises `SevereCheckError` exactly
on return code 127 and otherwise returns control to the caller. -/
def raise_severe_if_command_not_found (returncode : Int) : Except PyExc Unit :=
  if returncode = 127 then .error (.severeCheckError "Command not found")
  else .ok ()

namespace Command

/-- Message of the `TemporaryCheckError` raised on a failed command. -/
def callFailMsg : String := "Unable to call the configured command"

/-- Message of the `TemporaryCheckError` raised on unparsable output. -/
def parseFailMsg : String := "Return value cannot be interpreted as a timestamp"

/-- Embedding of `Command.check`: take the first line of standard output
(`check_output(...).splitlines()[0]` — an `IndexError` escapes on empty
output, since only `CalledProcessError` and `ValueError` are caught).  A
non-empty stripped line is parsed as a float and returned as an aware UTC
instant (`ValueError` becomes `TemporaryCheckError`); an empty stripped
line yields `none`.  On `CalledProcessError`, first the not-found
distinction is applied, then `TemporaryCheckError` is raised.  The
`timestamp` argument is accepted and ignored, as in the source. -/
def check (timestamp : PyDateTime) (run : CommandRun) :
    Except PyExc (Option PyDateTime) :=
  match run with
  | .calledProcessError returncode =>
    match raise_severe_if_command_not_found returncode with
    | .error e => .error e
    | .ok () => .error (.temporaryCheckError callFailMsg)
  | .output stdout =>
    match (pySplitlines stdout).head? with
    | none => .error .indexError
    | some line =>
      if pyStrip line != "" then
        match parseFloat (pyStrip line) with
        | some x => .ok (some (fromtimestampUtc x))
        | none => .error (.temporaryCheckError parseFailMsg)
      else .ok none

end Command

/-- The keyword arguments accepted by Python's `timedelta`, with their
length in seconds; `timedelta(**{u: v})` raises `TypeError` for any other
keyword `u`. -/
def unitSeconds : String → Option Rat
  | "days" => some 86400
  | "seconds" => some 1
  | "microseconds" => some (1 / 1000000)
  | "milliseconds" => some (1 / 1000)
  | "minutes" => some 60
  | "hours" => some 3600
  | "weeks" => some 604800
  | _ => none

namespace Periodic

/-- Embedding of `Periodic.create`: build `{config["unit"]:
float(config["value"])}` and pass it to `timedelta`; `KeyError` (missing
option), `ValueError` (unparsable value) and `TypeError` (unknown
`timedelta` keyword) all become `ConfigurationError`.  The configuration is
observed as the two optional option strings; the resulting delta is its
total length in seconds. -/
def create (unitOpt valueOpt : Option String) : Except PyExc Rat :=
  match unitOpt with
  | none => .error (.configurationError "missing option unit")
  | some unit =>
    match valueOpt with
    | none => .error (.configurationError "missing option value")
    | some value =>
      match parseFloat value with
      | none => .error (.configurationError "could not convert string to float")
      | some v =>
        match unitSeconds unit with
        | none => .error (.configurationError "unexpected keyword argument")
        | some s => .ok (v * s)

/-- Embedding of `Periodic.check`: `timestamp + self._delta`.  The function
is total: once constructed, the check cannot fail. -/
def check (delta : Rat) (timestamp : PyDateTime) : PyDateTime :=
  dtAdd timestamp delta

end Periodic

/-!
Bus query and checks from `src/autosuspend/checks/systemd.py`.
-/

/-- The two elapse properties read from a timer unit on the bus
(`org.freedesktop.systemd1.Timer`), in microseconds. -/
structure TimerProps where
  nextElapseUSecRealtime : Nat
  nextElapseUSecMonotonic : Nat
  deriving DecidableEq, Repr

/-- Model of Python `dict` assignment `m[k] = v` on an insertion-ordered
association list: an existing key keeps its position and gets the new
value, a new key is appended. -/
def dictInsert (m : List (String × PyDateTime)) (k : String) (v : PyDateTime) :
    List (String × PyDateTime) :=
  if m.any (fun p => p.1 == k) then
    m.map (fun p => if p.1 == k then (k, v) else p)
  else m ++ [(k, v)]

/-- Loop body of `next_timer_executions`: the `next_time` computed for one
timer unit.  Property truthiness is non-zeroness; a realtime value is
interpreted as microseconds since the epoch in UTC, a monotonic value as
microseconds added to the current UTC time.  (The subsequent
`if next_time:` in the source is an is-not-None test, since `datetime`
objects are always truthy.) -/
def timer_next_time (now : PyDateTime) (props : TimerProps) : Option PyDateTime :=
  if props.nextElapseUSecRealtime ≠ 0 then
    some (fromtimestampUtc ((props.nextElapseUSecRealtime : Rat) / 1000000))
  else if props.nextElapseUSecMonotonic ≠ 0 then
    some (dtAdd now ((props.nextElapseUSecMonotonic : Rat) / 1000000))
  else none

/-- Embedding of `next_timer_executions`: the bus observation is the listed
units as name/properties pairs, plus the current UTC time `now` used for
monotonic conversion.  Units whose name does not end in `.timer` are
filtered out; each remaining unit with a computable `next_time` is stored
in the result dict under its name. -/
def next_timer_executions (now : PyDateTime)
    (units : List (String × TimerProps)) : List (String × PyDateTime) :=
  let timers := units.filter (fun u => strEndsWith u.1 ".timer")
  timers.foldl
    (fun result t =>
      match timer_next_time now t.2 with
      | some next_time => dictInsert result t.1 next_time
      | none => result)
    []

namespace SystemdTimer

/-- Embedding of `SystemdTimer.check` (identical in
`checks/systemd.py` and `checks/wakeup.py`): filter the executions mapping
to the units whose name the compiled pattern matches, and take the minimum;
the `ValueError` of `min` on an empty sequence becomes `None`.  The
compiled pattern `self._match` is observed as the predicate `matcher`,
the truth value of `self._match.match(name)` (`re.match` anchors at the
start of the name).  The `timestamp` argument is accepted and ignored, as
in the source. -/
def check (timestamp : PyDateTime) (matcher : String → Bool)
    (executions : List (String × PyDateTime)) : Option PyDateTime :=
  let matching_executions :=
    (executions.filter (fun p => matcher p.1)).map Prod.snd
  pyMinD matching_executions

end SystemdTimer

/-- Matcher for a pattern of the form `lit.*` (a literal with no regex
metacharacters, followed by `.*`): Python's `re.match` anchors at the start,
so such a pattern matches exactly the names starting with the literal. -/
def matchLiteralDotStar (lit : String) (name : String) : Bool :=
  strStartsWith name lit

/-- The logind session properties consumed by `LogindSessionsIdle.check`:
the dict entries `Type`, `State` and `IdleHint`. -/
structure SessionProps where
  stype : String
  sstate : String
  idleHint : Bool
  deriving DecidableEq, Repr

namespace LogindSessionsIdle

/-- Busy reason built by `"Login session {} is not idle".format(session_id)`. -/
def busyReason (session_id : String) : String :=
  "Login session " ++ session_id ++ " is not idle"

/-- Embedding of `LogindSessionsIdle.check`: iterate the sessions in bus
order; skip a session whose type is not in `self._types` or whose state is
not in `self._states`; return the busy reason for the first remaining
session whose `IdleHint` is false; return `None` when the loop ends. -/
def check (types states : List String) :
    List (String × SessionProps) → Option String
  | [] => none
  | (session_id, props) :: rest =>
    if ¬ types.contains props.stype then check types states rest
    else if ¬ states.contains props.sstate then check types states rest
    else if ¬ props.idleHint then some (busyReason session_id)
    else check types states rest

end LogindSessionsIdle

/-!
Document-derived wakeup checks (`XPath`, `XPathDelta`) from
`src/autosuspend/checks/wakeup.py`.  The XPath evaluation itself
(`self.evaluate()`, from the `XPathMixin` in `checks/util.py`) is an
external observation: a list of result nodes, each either a string or a
non-string node (on which `float` raises `TypeError`).
-/

/-- One match returned by `self.evaluate()`. -/
inductive XMatch where
  | str (s : String)
  | nonStr
  deriving DecidableEq, Repr

/-- Model of `float(result)` on an XPath result node: `TypeError` for a
non-string node, `ValueError` for an unparsable string. -/
def xmatchFloat (m : XMatch) : Except PyExc Rat :=
  match m with
  | .nonStr => .error .typeError
  | .str s =>
    match parseFloat s with
    | some x => .ok x
    | none => .error .valueError

namespace XPath

/-- Message of the `TemporaryCheckError` raised on a non-string match (the
source appends `str(error)`, which is not modelled). -/
def typeFailMsg : String := "XPath returned a result that is not a string"

/-- Message of the `TemporaryCheckError` raised on an unparsable match. -/
def valueFailMsg : String := "Result cannot be parsed"

/-- Embedding of `XPath.convert_result` (absolute variant):
`datetime.fromtimestamp(float(result), timezone.utc)`.  The `timestamp`
argument is accepted and ignored, as in the source. -/
def convert_result (m : XMatch) (timestamp : PyDateTime) :
    Except PyExc PyDateTime :=
  (xmatchFloat m).map fromtimestampUtc

/-- Embedding of the shared body of `XPath.check`, parametrised by the
`convert_result` method that the `XPathDelta` subclass overrides: when the
match list is non-empty, `min(self.convert_result(m, timestamp) for m in
matches)` converts the results in order and propagates the first exception;
`TypeError` and `ValueError` become `TemporaryCheckError`.  An empty match
list yields `None`. -/
def check_with (convert : XMatch → PyDateTime → Except PyExc PyDateTime)
    (timestamp : PyDateTime) (matchList : List XMatch) :
    Except PyExc (Option PyDateTime) :=
  if !matchList.isEmpty then
    match matchList.mapM (fun m => convert m timestamp) with
    | .ok converted => .ok (pyMinD converted)
    | .error .typeError => .error (.temporaryCheckError typeFailMsg)
    | .error .valueError => .error (.temporaryCheckError valueFailMsg)
    | .error e => .error e
  else .ok none

/-- Embedding of `XPath.check` (absolute variant). -/
def check (timestamp : PyDateTime) (matchList : List XMatch) :
    Except PyExc (Option PyDateTime) :=
  check_with convert_result timestamp matchList

end XPath

namespace XPathDelta

/-- The units accepted by `XPathDelta` (`XPathDelta.UNITS` in the source). -/
def UNITS : List String :=
  ["days", "seconds", "microseconds", "milliseconds", "minutes", "hours", "weeks"]

/-- Embedding of the unit handling of `XPathDelta.create` and
`XPathDelta.__init__`: the `unit` option defaults to `"minutes"`; a unit
outside `UNITS` makes `__init__` raise `ValueError("Unsupported unit")`,
which `create` turns into a `ConfigurationError`.  The URL/XPath plumbing
collected by `XPath.collect_init_args` is not modelled; the result is the
validated unit. -/
def create (unitOpt : Option String) : Except PyExc String :=
  let unit := unitOpt.getD "minutes"
  if UNITS.contains unit then .ok unit
  else .error (.configurationError "Unsupported unit")

/-- Embedding of `XPathDelta.convert_result`:
`timestamp + timedelta(**{self._unit: float(result)})`. -/
def convert_result (unit : String) (m : XMatch) (timestamp : PyDateTime) :
    Except PyExc PyDateTime :=
  match xmatchFloat m with
  | .error e => .error e
  | .ok x =>
    match unitSeconds unit with
    | some s => .ok (dtAdd timestamp (x * s))
    | none => .error .typeError

/-- Embedding of `XPathDelta.check`: the inherited `XPath.check` body with
the overridden `convert_result`. -/
def check (unit : String) (timestamp : PyDateTime) (matchList : List XMatch) :
    Except PyExc (Option PyDateTime) :=
  XPath.check_with (convert_result unit) timestamp matchList

end XPathDelta

/-!
Helper lemmas about the Python-builtin models.
-/

theorem dtLt_iff (a b : PyDateTime) :
    dtLt a b = true ↔ a.epochSeconds < b.epochSeconds := by
  simp [dtLt]

theorem pyMin2_cases (x y : PyDateTime) : pyMin2 x y = x ∨ pyMin2 x y = y := by
  unfold pyMin2
  split
  · right; rfl
  · left; rfl

theorem pyMin2_le_left (x y : PyDateTime) :
    (pyMin2 x y).epochSeconds ≤ x.epochSeconds := by
  unfold pyMin2
  split
  · next h => exact le_of_lt ((dtLt_iff _ _).mp h)
  · exact le_refl _

theorem pyMin2_le_right (x y : PyDateTime) :
    (pyMin2 x y).epochSeconds ≤ y.epochSeconds := by
  unfold pyMin2
  split
  · exact le_refl _
  · next h =>
    exact le_of_not_lt (fun hc => h ((dtLt_iff _ _).mpr hc))

theorem foldl_pyMin2_mem (xs : List PyDateTime) (x : PyDateTime) :
    xs.foldl pyMin2 x ∈ x :: xs := by
  induction xs generalizing x with
  | nil => simp
  | cons y ys ih =>
    have h := ih (pyMin2 x y)
    rw [List.foldl_cons]
    rcases List.mem_cons.mp h with h1 | h1
    · rcases pyMin2_cases x y with h2 | h2
      · rw [h1, h2]; exact List.mem_cons_self _ _
      · rw [h1, h2]
        exact List.mem_cons_of_mem _ (List.mem_cons_self _ _)
    · exact List.mem_cons_of_mem _ (List.mem_cons_of_mem _ h1)

theorem foldl_pyMin2_le (xs : List PyDateTime) (x : PyDateTime) :
    (xs.foldl pyMin2 x).epochSeconds ≤ x.epochSeconds ∧
    ∀ y ∈ xs, (xs.foldl pyMin2 x).epochSeconds ≤ y.epochSeconds := by
  induction xs generalizing x with
  | nil => simp
  | cons y ys ih =>
    have h := ih (pyMin2 x y)
    rw [List.foldl_cons]
    refine ⟨le_trans h.1 (pyMin2_le_left x y), ?_⟩
    intro z hz
    rcases List.mem_cons.mp hz with h1 | h1
    · rw [h1]; exact le_trans h.1 (pyMin2_le_right x y)
    · exact h.2 z h1

theorem pyMinD_eq_none_iff (l : List PyDateTime) :
    pyMinD l = none ↔ l = [] := by
  cases l <;> simp [pyMinD]

theorem pyMinD_mem {l : List PyDateTime} {d : PyDateTime}
    (h : pyMinD l = some d) : d ∈ l := by
  cases l with
  | nil => simp [pyMinD] at h
  | cons x xs =>
    have hm := foldl_pyMin2_mem xs x
    simp only [pyMinD, Option.some.injEq] at h
    exact h ▸ hm

theorem pyMinD_le {l : List PyDateTime} {d : PyDateTime}
    (h : pyMinD l = some d) :
    ∀ x ∈ l, d.epochSeconds ≤ x.epochSeconds := by
  cases l with
  | nil => simp [pyMinD] at h
  | cons x xs =>
    simp only [pyMinD, Option.some.injEq] at h
    intro z hz
    have hb := foldl_pyMin2_le xs x
    rcases List.mem_cons.mp hz with h1 | h1
    · rw [← h, h1]; exact hb.1
    · rw [← h]; exact hb.2 z h1

theorem except_bind_ok {ε α β : Type} {x : Except ε α} {f : α → Except ε β}
    {b : β} (h : (x >>= f) = .ok b) : ∃ a, x = .ok a ∧ f a = .ok b := by
  cases x with
  | error e => simp [Bind.bind, Except.bind] at h
  | ok a => exact ⟨a, rfl, by simpa [Bind.bind, Except.bind] using h⟩

theorem list_mapM_ok_mem {ε α β : Type} (f : α → Except ε β) :
    ∀ (l : List α) (vs : List β), l.mapM f = .ok vs →
      ∀ v ∈ vs, ∃ a ∈ l, f a = .ok v := by
  intro l
  induction l with
  | nil =>
    intro vs h v hv
    simp only [List.mapM_nil, pure, Except.pure, Except.ok.injEq] at h
    rw [← h] at hv
    simp at hv
  | cons a l ih =>
    intro vs h v hv
    rw [List.mapM_cons] at h
    obtain ⟨b, hb, h2⟩ := except_bind_ok h
    obtain ⟨bs, hbs, h3⟩ := except_bind_ok h2
    simp only [pure, Except.pure, Except.ok.injEq] at h3
    rw [← h3] at hv
    rcases List.mem_cons.mp hv with h4 | h4
    · exact ⟨a, List.mem_cons_self _ _, h4 ▸ hb⟩
    · obtain ⟨a2, ha2, hfa2⟩ := ih bs hbs v h4
      exact ⟨a2, List.mem_cons_of_mem _ ha2, hfa2⟩

theorem list_mapM_ok_of_forall {ε α β : Type} (f : α → Except ε β) :
    ∀ {l : List α} {vs : List β},
      List.Forall₂ (fun a b => f a = .ok b) l vs → l.mapM f = .ok vs := by
  intro l vs h
  induction h with
  | nil => rfl
  | cons hab _ ih =>
    rw [List.mapM_cons, hab, ih]
    rfl

/-!
Helper lemmas about `dictInsert` and the fold in `next_timer_executions`.
-/

theorem lookup_map_overwrite (k : String) (v : PyDateTime) :
    ∀ m : List (String × PyDateTime), m.any (fun p => p.1 == k) = true →
      List.lookup k (m.map (fun p => if p.1 == k then (k, v) else p)) = some v := by
  intro m
  induction m with
  | nil => intro h; simp at h
  | cons p m ih =>
    obtain ⟨pk, pv⟩ := p
    intro h
    by_cases hk : pk = k
    · simp [List.lookup_cons, hk]
    · have h2 : m.any (fun p => p.1 == k) = true := by
        cases hor : ((pk == k) : Bool) with
        | true => exact absurd (beq_iff_eq.mp hor) hk
        | false => simpa [List.any_cons, hor] using h
      have hkk : (k == pk) = false := beq_false_of_ne (Ne.symm hk)
      have hpk : (pk == k) = false := beq_false_of_ne hk
      simp only [List.map_cons, hpk, Bool.false_eq_true, if_false, List.lookup_cons, hkk]
      exact ih h2

theorem lookup_append_single (k : String) (v : PyDateTime) :
    ∀ m : List (String × PyDateTime), m.any (fun p => p.1 == k) = false →
      List.lookup k (m ++ [(k, v)]) = some v := by
  intro m
  induction m with
  | nil => intro h; simp [List.lookup_cons]
  | cons p m ih =>
    obtain ⟨pk, pv⟩ := p
    intro h
    simp only [List.any_cons, Bool.or_eq_false_iff] at h
    have hkk : (k == pk) = false :=
      beq_false_of_ne (Ne.symm (ne_of_beq_false h.1))
    simp only [List.cons_append, List.lookup_cons, hkk]
    exact ih h.2

theorem lookup_map_keep (k k2 : String) (v : PyDateTime) (hne : k2 ≠ k) :
    ∀ m : List (String × PyDateTime),
      List.lookup k2 (m.map (fun p => if p.1 == k then (k, v) else p)) =
        List.lookup k2 m := by
  intro m
  induction m with
  | nil => simp
  | cons p m ih =>
    obtain ⟨pk, pv⟩ := p
    by_cases hk : pk = k
    · have h1 : (k2 == k) = false := beq_false_of_ne hne
      have h2 : (k2 == pk) = false := beq_false_of_ne (by rw [hk]; exact hne)
      simp only [List.map_cons, hk, beq_self_eq_true, if_true, List.lookup_cons, h1, h2]
      exact ih
    · have h3 : (pk == k) = false := beq_false_of_ne hk
      simp only [List.map_cons, h3, Bool.false_eq_true, if_false, List.lookup_cons]
      cases hb : (k2 == pk) with
      | true => rfl
      | false => exact ih

theorem lookup_append_keep (k k2 : String) (v : PyDateTime) (hne : k2 ≠ k) :
    ∀ m : List (String × PyDateTime),
      List.lookup k2 (m ++ [(k, v)]) = List.lookup k2 m := by
  intro m
  induction m with
  | nil => simp [List.lookup_cons, beq_false_of_ne hne]
  | cons p m ih =>
    obtain ⟨pk, pv⟩ := p
    simp only [List.cons_append, List.lookup_cons]
    cases hb : (k2 == pk) with
    | true => rfl
    | false => exact ih

theorem dictInsert_lookup_self (m : List (String × PyDateTime)) (k : String)
    (v : PyDateTime) : List.lookup k (dictInsert m k v) = some v := by
  unfold dictInsert
  split
  · next h => exact lookup_map_overwrite k v m h
  · next h => exact lookup_append_single k v m (Bool.eq_false_iff.mpr h)

theorem dictInsert_lookup_other (m : List (String × PyDateTime)) (k k2 : String)
    (v : PyDateTime) (hne : k2 ≠ k) :
    List.lookup k2 (dictInsert m k v) = List.lookup k2 m := by
  unfold dictInsert
  split
  · exact lookup_map_keep k k2 v hne m
  · exact lookup_append_keep k k2 v hne m

theorem buildDict_lookup_absent (now : PyDateTime) :
    ∀ (ts : List (String × TimerProps)) (init : List (String × PyDateTime))
      (name : String), name ∉ ts.map Prod.fst →
      List.lookup name (ts.foldl
        (fun result t =>
          match timer_next_time now t.2 with
          | some next_time => dictInsert result t.1 next_time
          | none => result)
        init) = List.lookup name init := by
  intro ts
  induction ts with
  | nil => intro init name _; rfl
  | cons t ts ih =>
    intro init name h
    simp only [List.map_cons, List.mem_cons, not_or] at h
    rw [List.foldl_cons, ih _ name h.2]
    cases timer_next_time now t.2 with
    | none => rfl
    | some v => exact dictInsert_lookup_other init t.1 name v h.1

theorem buildDict_lookup_mem (now : PyDateTime) :
    ∀ (ts : List (String × TimerProps)) (init : List (String × PyDateTime))
      (name : String) (props : TimerProps),
      (ts.map Prod.fst).Nodup → (name, props) ∈ ts →
      List.lookup name (ts.foldl
        (fun result t =>
          match timer_next_time now t.2 with
          | some next_time => dictInsert result t.1 next_time
          | none => result)
        init) =
        (match timer_next_time now props with
        | some v => some v
        | none => List.lookup name init) := by
  intro ts
  induction ts with
  | nil => intro init name props _ hmem; simp at hmem
  | cons t ts ih =>
    intro init name props hnd hmem
    simp only [List.map_cons, List.nodup_cons] at hnd
    rw [List.foldl_cons]
    rcases List.mem_cons.mp hmem with heq | hmem2
    · have hname : name = t.1 := by rw [← heq]
      have hprops : props = t.2 := by rw [← heq]
      have habs : name ∉ ts.map Prod.fst := hname ▸ hnd.1
      rw [buildDict_lookup_absent now ts _ name habs, hname, hprops]
      cases timer_next_time now t.2 with
      | none => rfl
      | some v => exact dictInsert_lookup_self init t.1 v
    · have hname : name ≠ t.1 := by
        intro hc
        exact hnd.1 (hc ▸ List.mem_map.mpr ⟨(name, props), hmem2, rfl⟩)
      rw [ih _ name props hnd.2 hmem2]
      cases timer_next_time now props with
      | some v => rfl
      | none =>
        cases timer_next_time now t.2 with
        | none => rfl
        | some v => exact dictInsert_lookup_other init t.1 name v hname

theorem timer_next_time_aware (now : PyDateTime) (props : TimerProps)
    (hnow : now.utcAware = true) :
    ∀ d, timer_next_time now props = some d → d.utcAware = true := by
  intro d h
  unfold timer_next_time at h
  split at h
  · cases h; rfl
  · split at h
    · cases h; simpa [dtAdd] using hnow
    · cases h

theorem mem_dictInsert {p : String × PyDateTime}
    {m : List (String × PyDateTime)} {k : String} {v : PyDateTime}
    (h : p ∈ dictInsert m k v) : p = (k, v) ∨ p ∈ m := by
  unfold dictInsert at h
  split at h
  · rcases List.mem_map.mp h with ⟨q, hq, hq2⟩
    by_cases hk : q.1 = k
    · left
      rw [← hq2]
      simp [hk]
    · right
      rw [← hq2]
      simpa [beq_false_of_ne hk] using hq
  · rcases List.mem_append.mp h with h1 | h1
    · right; exact h1
    · left; simpa using h1

theorem buildDict_aware (now : PyDateTime) (hnow : now.utcAware = true) :
    ∀ (ts : List (String × TimerProps)) (init : List (String × PyDateTime)),
      (∀ p ∈ init, p.2.utcAware = true) →
      ∀ p ∈ ts.foldl
        (fun result t =>
          match timer_next_time now t.2 with
          | some next_time => dictInsert result t.1 next_time
          | none => result)
        init, p.2.utcAware = true := by
  intro ts
  induction ts with
  | nil => intro init hinit p hp; exact hinit p hp
  | cons t ts ih =>
    intro init hinit p hp
    rw [List.foldl_cons] at hp
    refine ih _ ?_ p hp
    intro q hq
    cases hnt : timer_next_time now t.2 with
    | none => exact hinit q (by rwa [hnt] at hq)
    | some v =>
      rw [hnt] at hq
      rcases mem_dictInsert hq with h1 | h1
      · rw [h1]
        exact timer_next_time_aware now t.2 hnow v hnt
      · exact hinit q h1

theorem next_timer_executions_aware (now : PyDateTime)
    (units : List (String × TimerProps)) (hnow : now.utcAware = true) :
    ∀ p ∈ next_timer_executions now units, p.2.utcAware = true := by
  intro p hp
  exact buildDict_aware now hnow _ [] (by intro q hq; simp at hq) p hp

/-!
Claim theorems.
-/

/-- C10: for the File, Command, init-system timer-scan, and document-derived
absolute wakeup checks, the result of `check(reference_time)` is independent
of the `reference_time` argument: for any two reference instants and the
same external-source observations, the two invocations return the same
result (or raise the same error). -/
theorem wakeup_checks_ignore_reference_time :
    (∀ (T1 T2 : PyDateTime) (fr : FileRead),
      File.check T1 fr = File.check T2 fr)
    ∧ (∀ (T1 T2 : PyDateTime) (run : CommandRun),
      Command.check T1 run = Command.check T2 run)
    ∧ (∀ (T1 T2 : PyDateTime) (matcher : String → Bool)
        (executions : List (String × PyDateTime)),
      SystemdTimer.check T1 matcher executions =
        SystemdTimer.check T2 matcher executions)
    ∧ (∀ (T1 T2 : PyDateTime) (ms : List XMatch),
      XPath.check T1 ms = XPath.check T2 ms) :=
  ⟨fun _ _ _ => rfl, fun _ _ _ => rfl, fun _ _ _ _ => rfl, fun _ _ _ => rfl⟩

/-- C2: evaluation of the Command wakeup check around its claimed contract.
A command that exits zero with completely empty (zero-byte) standard output
makes `check` raise an uncaught `IndexError` from `splitlines()[0]` instead
of returning nothing; an output consisting of one empty line yields nothing;
a non-zero exit raises `TemporaryCheckError` after the not-found distinction
(`SevereCheckError` on exit status 127); unparsable output raises
`TemporaryCheckError`. -/
theorem command_check_empty_output_behaviour :
    Command.check ⟨0, true⟩ (.output "") = .error .indexError
    ∧ Command.check ⟨0, true⟩ (.output "\n") = .ok none
    ∧ Command.check ⟨0, true⟩ (.output "1700000000") =
        .ok (some ⟨1700000000, true⟩)
    ∧ Command.check ⟨0, true⟩ (.calledProcessError 1) =
        .error (.temporaryCheckError Command.callFailMsg)
    ∧ Command.check ⟨0, true⟩ (.calledProcessError 127) =
        .error (.severeCheckError "Command not found")
    ∧ Command.check ⟨0, true⟩ (.output "not-a-number") =
        .error (.temporaryCheckError Command.parseFailMsg) :=
  ⟨rfl, rfl, rfl, rfl, rfl, rfl⟩

/-- C3: evaluation of the File wakeup check around its claimed contract.
A missing file yields nothing; a file containing `1700000000` yields the
corresponding aware UTC instant; an unparsable file and an I/O error raise
`TemporaryCheckError`; but an existing empty (zero-byte) file makes `check`
raise an uncaught `IndexError` from `splitlines()[0]` instead of
`TemporaryCheckError`. -/
theorem file_check_empty_file_behaviour :
    File.check ⟨0, true⟩ .fileNotFound = .ok none
    ∧ File.check ⟨0, true⟩ (.content "1700000000") =
        .ok (some ⟨1700000000, true⟩)
    ∧ File.check ⟨0, true⟩ (.content "not-a-number") =
        .error (.temporaryCheckError File.readFailMsg)
    ∧ File.check ⟨0, true⟩ .ioError =
        .error (.temporaryCheckError File.readFailMsg)
    ∧ File.check ⟨0, true⟩ (.content "") = .error .indexError :=
  ⟨rfl, rfl, rfl, rfl, rfl⟩

/-- C1: counterexample — in `suspend_while_paused` mode, a JSON reply whose
`result` object lacks the `Player.Playing` key makes `Kodi.check` return
idle (nothing) instead of raising `TemporaryCheckError`: the missing
expected boolean key IS silently treated as idle. -/
theorem kodi_missing_player_key_treated_idle :
    Kodi.check true (some (.obj [("result", .obj [])])) = .ok none := rfl

/-- C1 (amended): in both modes, a non-JSON body, a reply without a `result`
key, and a reply that is not a JSON object (so the `result` lookup fails
with a type error) all raise `TemporaryCheckError`; however, in
`suspend_while_paused` mode a reply whose `result` object merely lacks the
expected `Player.Playing` boolean key is silently treated as idle
(nothing). -/
theorem kodi_check_parse_error_taxonomy :
    (∀ swp, Kodi.check swp none =
      .error (.temporaryCheckError Kodi.parseFailMsg))
    ∧ (∀ swp fields, pyDictGet fields "result" = none →
        Kodi.check swp (some (.obj fields)) =
          .error (.temporaryCheckError Kodi.parseFailMsg))
    ∧ (∀ swp j, (∀ fields, j ≠ Json.obj fields) →
        Kodi.check swp (some j) =
          .error (.temporaryCheckError Kodi.parseFailMsg))
    ∧ (∀ fields, pyDictGet fields "Player.Playing" = none →
        Kodi.check true (some (.obj [("result", .obj fields)])) = .ok none) := by
  refine ⟨fun swp => rfl, ?_, ?_, ?_⟩
  · intro swp fields h
    have hs : Kodi.safe_request_result (some (.obj fields)) =
        .error (.temporaryCheckError Kodi.parseFailMsg) := by
      simp only [Kodi.safe_request_result, pySubscript, h]
    unfold Kodi.check
    rw [hs]
    rfl
  · intro swp j h
    cases j with
    | obj fields => exact absurd rfl (h fields)
    | null => rfl
    | bool b => rfl
    | num q => rfl
    | str s => rfl
    | arr elems => rfl
  · intro fields h
    have hs : Kodi.safe_request_result (some (.obj [("result", .obj fields)])) =
        .ok (.obj fields) := rfl
    unfold Kodi.check
    rw [hs]
    simp [Bind.bind, Except.bind, h]
    rfl

/-- C1 (amended) witness: concrete replies exercising each hypothesis of the
amended theorem. -/
theorem kodi_check_parse_error_taxonomy_witness :
    Kodi.check true (some (.obj [])) =
      .error (.temporaryCheckError Kodi.parseFailMsg)
    ∧ Kodi.check false (some (.arr [.null])) =
      .error (.temporaryCheckError Kodi.parseFailMsg)
    ∧ Kodi.check true (some (.obj [("result", .obj [("Other", .bool true)])])) =
      .ok none :=
  ⟨kodi_check_parse_error_taxonomy.2.1 true [] rfl,
   kodi_check_parse_error_taxonomy.2.2.1 false (.arr [.null])
     (fun fields hc => Json.noConfusion hc),
   kodi_check_parse_error_taxonomy.2.2.2 [("Other", .bool true)] rfl⟩

/-- C8: once constructed, the Periodic wakeup check always returns exactly
`reference_time + delta` and never fails (its result type is a plain
datetime, not a fallible one); `value=30` with unit `minutes` yields a delta
of 1800 seconds, so `check` returns `T+30min` exactly; an unsupported
duration unit (with a parsable value) is a `ConfigurationError` at
construction, so the check is never built with a bad unit. -/
theorem periodic_check_adds_configured_delta :
    Periodic.create (some "minutes") (some "30") = .ok 1800
    ∧ (∀ (delta : Rat) (T : PyDateTime), Periodic.check delta T = dtAdd T delta)
    ∧ (∀ T : PyDateTime, Periodic.check 1800 T =
        ⟨T.epochSeconds + 1800, T.utcAware⟩)
    ∧ (∀ (u v : String) (x : Rat), parseFloat v = some x →
        unitSeconds u = none →
        Periodic.create (some u) (some v) =
          .error (.configurationError "unexpected keyword argument")) := by
  refine ⟨?_, fun delta T => rfl, fun T => rfl, ?_⟩
  · simp only [Periodic.create, show parseFloat "30" = some (30 : Rat) from rfl,
      unitSeconds]
    norm_num
  · intro u v x h1 h2
    simp only [Periodic.create, h1, h2]

/-- C8 witness: concrete instantiation of the hypothesis-bearing part — a
unit unknown to `timedelta` with a parsable value is rejected at
construction. -/
theorem periodic_check_adds_configured_delta_witness :
    Periodic.create (some "fortnights") (some "30") =
      .error (.configurationError "unexpected keyword argument") :=
  periodic_check_adds_configured_delta.2.2.2 "fortnights" "30" 30 rfl rfl

/-- C4: for every timer unit read from the bus, the elapse conversion rule:
a non-zero realtime property wins and is interpreted as microseconds since
the Unix epoch in UTC (any monotonic value is ignored); otherwise a
non-zero monotonic property yields the current UTC time plus that many
microseconds; a unit with neither populated contributes no entry to the
resulting name-to-instant mapping. -/
theorem next_timer_executions_entry (now : PyDateTime)
    (units : List (String × TimerProps)) (name : String) (props : TimerProps)
    (hnd : (units.map Prod.fst).Nodup)
    (hmem : (name, props) ∈ units)
    (hsuf : strEndsWith name ".timer" = true) :
    List.lookup name (next_timer_executions now units) =
      (if props.nextElapseUSecRealtime ≠ 0 then
        some (fromtimestampUtc ((props.nextElapseUSecRealtime : Rat) / 1000000))
      else if props.nextElapseUSecMonotonic ≠ 0 then
        some (dtAdd now ((props.nextElapseUSecMonotonic : Rat) / 1000000))
      else none) := by
  have hsub : List.Sublist (units.filter (fun u => strEndsWith u.1 ".timer"))
      units :=
    List.filter_sublist units
  have hnd2 : ((units.filter (fun u => strEndsWith u.1 ".timer")).map
      Prod.fst).Nodup :=
    List.Nodup.sublist (List.Sublist.map Prod.fst hsub) hnd
  have hmem2 : (name, props) ∈
      units.filter (fun u => strEndsWith u.1 ".timer") :=
    List.mem_filter.mpr ⟨hmem, hsuf⟩
  unfold next_timer_executions
  rw [buildDict_lookup_mem now _ [] name props hnd2 hmem2]
  split
  · next v heq =>
    rw [← heq]
    rfl
  · next heq =>
    rw [show List.lookup name ([] : List (String × PyDateTime)) = none from rfl]
    conv_lhs => rw [← heq]
    rfl

/-- C4 witness: a two-unit bus observation exercising the hypotheses — the
realtime-populated `.timer` unit is mapped to its epoch-microsecond
instant. -/
theorem next_timer_executions_entry_witness :
    List.lookup "backup.timer" (next_timer_executions ⟨100, true⟩
      [("backup.timer", ⟨5000000, 7⟩), ("foo.service", ⟨1, 1⟩)]) =
      some (fromtimestampUtc ((5000000 : Rat) / 1000000)) :=
  next_timer_executions_entry ⟨100, true⟩
    [("backup.timer", ⟨5000000, 7⟩), ("foo.service", ⟨1, 1⟩)]
    "backup.timer" ⟨5000000, 7⟩ (by decide) (by decide) (by decide)

/-- C5: the init-system timer-scan wakeup check returns the minimum
next-elapse instant over exactly the timer units whose name the configured
pattern matches (the compiled pattern is observed as the predicate that
`re.match`, anchored at the start of the name, decides), and returns
nothing exactly when no unit name matches; in particular with a pattern
matching two units holding instants `X < Y` it returns `X`. -/
theorem systemd_timer_check_min_matching (T : PyDateTime)
    (matcher : String → Bool) (executions : List (String × PyDateTime)) :
    (SystemdTimer.check T matcher executions = none ↔
      ∀ p ∈ executions, matcher p.1 = false)
    ∧ (∀ d, SystemdTimer.check T matcher executions = some d →
        ((∃ p, p ∈ executions ∧ matcher p.1 = true ∧ p.2 = d)
          ∧ ∀ p ∈ executions, matcher p.1 = true →
              d.epochSeconds ≤ p.2.epochSeconds))
    ∧ (∀ X Y : Rat, X < Y →
        SystemdTimer.check T (fun _ => true)
          [("backup.timer", ⟨X, true⟩), ("cron.timer", ⟨Y, true⟩)] =
          some ⟨X, true⟩) := by
  refine ⟨?_, ?_, ?_⟩
  · unfold SystemdTimer.check
    rw [pyMinD_eq_none_iff, List.map_eq_nil_iff, List.filter_eq_nil_iff]
    constructor
    · intro h p hp
      exact Bool.eq_false_iff.mpr (h p hp)
    · intro h p hp
      exact Bool.eq_false_iff.mp (h p hp)
  · intro d h
    unfold SystemdTimer.check at h
    constructor
    · have hd := pyMinD_mem h
      rcases List.mem_map.mp hd with ⟨p, hp, hp2⟩
      rcases List.mem_filter.mp hp with ⟨hp3, hp4⟩
      exact ⟨p, hp3, hp4, hp2⟩
    · intro p hp hm
      exact pyMinD_le h p.2
        (List.mem_map.mpr ⟨p, List.mem_filter.mpr ⟨hp, hm⟩, rfl⟩)
  · intro X Y hXY
    have hnot : ¬ (Y < X) := not_lt.mpr (le_of_lt hXY)
    simp [SystemdTimer.check, pyMinD, pyMin2, dtLt, hnot]

/-- C5 witness: concrete instantiation discharging the hypothesis-bearing
parts — no unit matching the pattern means no wakeup. -/
theorem systemd_timer_check_min_matching_witness :
    SystemdTimer.check ⟨0, true⟩ (matchLiteralDotStar "nomatch")
      [("backup.timer", ⟨5, true⟩), ("cron.timer", ⟨7, true⟩)] = none :=
  (systemd_timer_check_min_matching ⟨0, true⟩ (matchLiteralDotStar "nomatch")
    [("backup.timer", ⟨5, true⟩), ("cron.timer", ⟨7, true⟩)]).1.mpr (by decide)

/-- Specialisation of `List.filter_cons_of_pos` to the session filter. -/
theorem filter_sessions_cons_pos (types states : List String)
    (s : String × SessionProps) (rest : List (String × SessionProps))
    (h : (types.contains s.2.stype && states.contains s.2.sstate) = true) :
    List.filter (fun s => types.contains s.2.stype && states.contains s.2.sstate)
      (s :: rest) =
      s :: List.filter
        (fun s => types.contains s.2.stype && states.contains s.2.sstate) rest :=
  List.filter_cons_of_pos h

/-- Specialisation of `List.filter_cons_of_neg` to the session filter. -/
theorem filter_sessions_cons_neg (types states : List String)
    (s : String × SessionProps) (rest : List (String × SessionProps))
    (h : ¬ ((types.contains s.2.stype && states.contains s.2.sstate) = true)) :
    List.filter (fun s => types.contains s.2.stype && states.contains s.2.sstate)
      (s :: rest) =
      List.filter
        (fun s => types.contains s.2.stype && states.contains s.2.sstate) rest :=
  List.filter_cons_of_neg h

/-- Specialisation of `List.find?_cons_of_pos` to the non-idle search. -/
theorem find_idle_cons_pos (s : String × SessionProps)
    (rest : List (String × SessionProps)) (h : (!s.2.idleHint) = true) :
    List.find? (fun s => !s.2.idleHint) (s :: rest) = some s :=
  List.find?_cons_of_pos rest h

/-- Specialisation of `List.find?_cons_of_neg` to the non-idle search. -/
theorem find_idle_cons_neg (s : String × SessionProps)
    (rest : List (String × SessionProps)) (h : ¬ ((!s.2.idleHint) = true)) :
    List.find? (fun s => !s.2.idleHint) (s :: rest) =
      List.find? (fun s => !s.2.idleHint) rest :=
  List.find?_cons_of_neg rest h

/-- C7: the login-session idle activity check iterates sessions in bus
order, skips (without failing) every session whose type or state is outside
the configured sets, returns busy with reason `Login session {id} is not
idle` for the first remaining session whose idle hint is false, and returns
nothing when all remaining sessions are idle or none remain — that is, it
computes `find?` of the non-idle predicate over the filtered session
list. -/
theorem logind_sessions_idle_first_non_idle (types states : List String)
    (sessions : List (String × SessionProps)) :
    LogindSessionsIdle.check types states sessions =
      ((sessions.filter (fun s =>
          types.contains s.2.stype && states.contains s.2.sstate)).find?
        (fun s => !s.2.idleHint)).map
        (fun s => LogindSessionsIdle.busyReason s.1) := by
  induction sessions with
  | nil => rfl
  | cons s rest ih =>
    obtain ⟨sid, props⟩ := s
    by_cases ht : types.contains props.stype = true
    · by_cases hs : states.contains props.sstate = true
      · have hp : (types.contains props.stype && states.contains props.sstate)
            = true := by
          rw [ht, hs]
          rfl
        by_cases hi : props.idleHint = true
        · have hq : ¬ ((!props.idleHint) = true) := by
            rw [hi]
            simp
          simp only [LogindSessionsIdle.check]
          rw [if_neg (not_not_intro ht), if_neg (not_not_intro hs),
            if_neg (not_not_intro hi),
            filter_sessions_cons_pos types states (sid, props) rest hp,
            find_idle_cons_neg (sid, props) _ hq, ih]
        · have hq : (!props.idleHint) = true := by
            rw [Bool.eq_false_iff.mpr hi]
            rfl
          simp only [LogindSessionsIdle.check]
          rw [if_neg (not_not_intro ht), if_neg (not_not_intro hs), if_pos hi,
            filter_sessions_cons_pos types states (sid, props) rest hp,
            find_idle_cons_pos (sid, props) _ hq]
          rfl
      · have hp : ¬ ((types.contains props.stype && states.contains props.sstate)
            = true) := by
          rw [Bool.eq_false_iff.mpr hs]
          simp
        simp only [LogindSessionsIdle.check]
        rw [if_neg (not_not_intro ht), if_pos hs,
          filter_sessions_cons_neg types states (sid, props) rest hp, ih]
    · have hp : ¬ ((types.contains props.stype && states.contains props.sstate)
          = true) := by
        rw [Bool.eq_false_iff.mpr ht]
        simp
      simp only [LogindSessionsIdle.check]
      rw [if_pos ht, filter_sessions_cons_neg types states (sid, props) rest hp,
        ih]

/-- Conversion of a list of successfully parsed string matches under the
delta `convert_result`: the monadic map succeeds with one offset instant per
match. -/
theorem xpath_delta_mapM_ok (u : String) (su : Rat) (T : PyDateTime)
    (hu : unitSeconds u = some su) :
    ∀ (ms : List String) (vs : List Rat),
      List.Forall₂ (fun m v => parseFloat m = some v) ms vs →
      (ms.map XMatch.str).mapM (fun m => XPathDelta.convert_result u m T) =
        .ok (vs.map (fun v => dtAdd T (v * su))) := by
  intro ms vs h
  induction h with
  | nil => rfl
  | cons hab htail ih =>
    rename_i a b as bs
    rw [List.map_cons, List.mapM_cons]
    have hc : XPathDelta.convert_result u (XMatch.str a) T =
        .ok (dtAdd T (b * su)) := by
      simp only [XPathDelta.convert_result, xmatchFloat, hab, hu]
    rw [hc, ih]
    rfl

/-- C6: for the document-derived relative (delta) wakeup check, every match
is parsed as a numeric offset in the configured unit and added to the
supplied reference time, and `check` returns the minimum of the resulting
instants; matches `10` and `20` with unit `minutes` and reference `T` yield
`T+600s`; an empty match sequence yields nothing; an unsupported unit
raises `ConfigurationError` at construction (and a missing `unit` option
defaults to `minutes`). -/
theorem xpath_delta_check_min_offsets :
    (∀ u, XPathDelta.UNITS.contains u = false →
      XPathDelta.create (some u) =
        .error (.configurationError "Unsupported unit"))
    ∧ XPathDelta.create none = .ok "minutes"
    ∧ (∀ u T, XPathDelta.check u T [] = .ok none)
    ∧ (∀ (u : String) (su : Rat) (T : PyDateTime) (ms : List String)
        (vs : List Rat), unitSeconds u = some su →
        List.Forall₂ (fun m v => parseFloat m = some v) ms vs → ms ≠ [] →
        XPathDelta.check u T (ms.map XMatch.str) =
          .ok (pyMinD (vs.map (fun v => dtAdd T (v * su)))))
    ∧ (∀ T : PyDateTime, XPathDelta.check "minutes" T [.str "10", .str "20"] =
        .ok (some (dtAdd T 600))) := by
  refine ⟨?_, rfl, fun u T => rfl, ?_, ?_⟩
  · intro u h
    simp only [XPathDelta.create, Option.getD_some]
    rw [h]
    rfl
  · intro u su T ms vs hu hf hne
    have hmap := xpath_delta_mapM_ok u su T hu ms vs hf
    have hemp : (ms.map XMatch.str).isEmpty = false := by
      cases ms with
      | nil => exact absurd rfl hne
      | cons a as => rfl
    unfold XPathDelta.check XPath.check_with
    rw [hemp, hmap]
    rfl
  · intro T
    have h1 : parseFloat "10" = some 10 := rfl
    have h2 : parseFloat "20" = some 20 := rfl
    have hmap := xpath_delta_mapM_ok "minutes" 60 T rfl ["10", "20"] [10, 20]
      (by exact List.Forall₂.cons h1 (List.Forall₂.cons h2 List.Forall₂.nil))
    rw [show [XMatch.str "10", XMatch.str "20"] =
      ["10", "20"].map XMatch.str from rfl]
    unfold XPathDelta.check XPath.check_with
    rw [show ((["10", "20"].map XMatch.str).isEmpty) = false from rfl, hmap]
    simp only [List.map_cons, List.map_nil, pyMinD, List.foldl_cons,
      List.foldl_nil, pyMin2, dtLt, dtAdd]
    norm_num

/-- C6 witness: concrete matches, unit and reference discharging the
hypotheses of the general minimum-offset part. -/
theorem xpath_delta_check_min_offsets_witness :
    XPathDelta.check "minutes" ⟨1000, true⟩ (["10", "20"].map XMatch.str) =
      .ok (pyMinD ([(10 : Rat), 20].map
        (fun v => dtAdd ⟨1000, true⟩ (v * 60)))) :=
  xpath_delta_check_min_offsets.2.2.2.1 "minutes" 60 ⟨1000, true⟩
    ["10", "20"] [10, 20] rfl
    (List.Forall₂.cons rfl (List.Forall₂.cons rfl List.Forall₂.nil))
    (by decide)

/-- Inversion of `Except.map` returning a success. -/
theorem except_map_ok {ε α β : Type} {x : Except ε α} {f : α → β} {b : β}
    (h : Except.map f x = .ok b) : ∃ a, x = .ok a ∧ f a = b := by
  cases x with
  | error e => simp [Except.map] at h
  | ok a => exact ⟨a, rfl, by simpa [Except.map] using h⟩

/-- C9: every instant returned by a Wakeup check is timezone-aware (UTC):
File, Command and the document-derived absolute check convert parsed
timestamps to UTC unconditionally; Periodic and the document-derived
relative check preserve the awareness of the (aware, per the Wakeup
contract) reference time; the timer scan returns instants obtained from the
bus conversion, all of which are aware when the current time is. -/
theorem wakeup_check_instants_are_utc_aware :
    (∀ (T : PyDateTime) (fr : FileRead) (d : PyDateTime),
      File.check T fr = .ok (some d) → d.utcAware = true)
    ∧ (∀ (T : PyDateTime) (run : CommandRun) (d : PyDateTime),
      Command.check T run = .ok (some d) → d.utcAware = true)
    ∧ (∀ (delta : Rat) (T : PyDateTime), T.utcAware = true →
      (Periodic.check delta T).utcAware = true)
    ∧ (∀ (T now : PyDateTime) (matcher : String → Bool)
        (units : List (String × TimerProps)) (d : PyDateTime),
      now.utcAware = true →
      SystemdTimer.check T matcher (next_timer_executions now units) = some d →
      d.utcAware = true)
    ∧ (∀ (T : PyDateTime) (ms : List XMatch) (d : PyDateTime),
      XPath.check T ms = .ok (some d) → d.utcAware = true)
    ∧ (∀ (u : String) (T : PyDateTime) (ms : List XMatch) (d : PyDateTime),
      T.utcAware = true → XPathDelta.check u T ms = .ok (some d) →
      d.utcAware = true) := by
  refine ⟨?_, ?_, ?_, ?_, ?_, ?_⟩
  · intro T fr d h
    unfold File.check at h
    split at h
    · exact Option.noConfusion (Except.ok.inj h)
    · exact Except.noConfusion h
    · split at h
      · exact Except.noConfusion h
      · split at h
        · next x hx =>
          rw [← Option.some.inj (Except.ok.inj h)]
          rfl
        · exact Except.noConfusion h
  · intro T run d h
    unfold Command.check at h
    split at h
    · split at h
      · exact Except.noConfusion h
      · exact Except.noConfusion h
    · split at h
      · exact Except.noConfusion h
      · split at h
        · split at h
          · next x hx =>
            rw [← Option.some.inj (Except.ok.inj h)]
            rfl
          · exact Except.noConfusion h
        · exact Option.noConfusion (Except.ok.inj h)
  · intro delta T hT
    exact hT
  · intro T now matcher units d hnow h
    unfold SystemdTimer.check at h
    have hd := pyMinD_mem h
    rcases List.mem_map.mp hd with ⟨p, hp, hp2⟩
    rcases List.mem_filter.mp hp with ⟨hp3, _⟩
    rw [← hp2]
    exact next_timer_executions_aware now units hnow p hp3
  · intro T ms d h
    unfold XPath.check XPath.check_with at h
    split at h
    · split at h
      · next converted heq =>
        have hd := pyMinD_mem (Except.ok.inj h)
        obtain ⟨m, _, hcm⟩ := list_mapM_ok_mem _ ms converted heq d hd
        cases m with
        | nonStr => exact Except.noConfusion hcm
        | str s =>
          obtain ⟨x, _, hx2⟩ := except_map_ok hcm
          rw [← hx2]
          rfl
      · exact Except.noConfusion h
      · exact Except.noConfusion h
      · exact Except.noConfusion h
    · exact Option.noConfusion (Except.ok.inj h)
  · intro u T ms d hT h
    unfold XPathDelta.check XPath.check_with at h
    split at h
    · split at h
      · next converted heq =>
        have hd := pyMinD_mem (Except.ok.inj h)
        obtain ⟨m, _, hcm⟩ := list_mapM_ok_mem _ ms converted heq d hd
        cases m with
        | nonStr => exact Except.noConfusion hcm
        | str s =>
          simp only [XPathDelta.convert_result, xmatchFloat] at hcm
          split at hcm
          · exact Except.noConfusion hcm
          · split at hcm
            · rw [← Except.ok.inj hcm]
              exact hT
            · exact Except.noConfusion hcm
      · exact Except.noConfusion h
      · exact Except.noConfusion h
      · exact Except.noConfusion h
    · exact Option.noConfusion (Except.ok.inj h)

/-- C9 witness: the File check on a concrete file content returns an aware
instant. -/
theorem wakeup_check_instants_are_utc_aware_witness :
    (⟨1700000000, true⟩ : PyDateTime).utcAware = true :=
  wakeup_check_instants_are_utc_aware.1 ⟨0, true⟩ (.content "1700000000")
    ⟨1700000000, true⟩ rfl
